import Mathlib

/-!
Shallow embedding of the Composite-Service API gateway (src/src/server.js).

The gateway fronts three upstream services (auth, route, subscription).
Each Express handler is modelled as a pure function from the inbound
request and an upstream environment (a function from outbound-call
descriptors to transport outcomes) to the gateway response paired with
the ordered list of outbound calls the handler issued.  Concurrency
(Promise.all / Promise.allSettled) is modelled by joining all outcomes
before any decision is taken, which is exactly what the source does:
every decision is a function of the joined outcome tuple, never of
arrival order.
-/

namespace CompositeService

/-- JSON-like values as handled by the gateway (express.json bodies and
axios response data). -/
inductive JsVal where
  | null
  | str (s : String)
  | num (n : Int)
  | boolean (b : Bool)
  | obj (fields : List (String × JsVal))
  | arr (elems : List JsVal)

/-- Property lookup on a JS object represented as a field list; `none`
models the JS value `undefined`. -/
def jlookup (fields : List (String × JsVal)) (key : String) : Option JsVal :=
  (fields.find? (fun kv => kv.1 == key)).map Prod.snd

/-- JavaScript truthiness of a possibly-absent value: `undefined`,
`null`, `0`, the empty string and `false` are falsy, everything else is
truthy.  Used by the field-presence guard `!userId || !routeId ||
!semester` (server.js line 105) and by `user.id || user.userId`
(server.js line 232). -/
def truthy : Option JsVal → Bool
  | none => false
  | some .null => false
  | some (.str s) => s != ""
  | some (.num n) => n != 0
  | some (.boolean b) => b
  | some (.obj _) => true
  | some (.arr _) => true

mutual

/-- JavaScript string conversion as performed by template interpolation:
numbers print in decimal, plain objects print as the fixed tag string,
arrays join their elements with commas. -/
def jsValToString : JsVal → String
  | .null => "null"
  | .str s => s
  | .num n => toString n
  | .boolean b => if b then "true" else "false"
  | .obj _ => "[object Object]"
  | .arr elems => jsArrToString elems

/-- Comma-joined string conversion of the elements of a JS array. -/
def jsArrToString : List JsVal → String
  | [] => ""
  | [v] => jsValToString v
  | v :: rest => jsValToString v ++ "," ++ jsArrToString rest

end

/-- Template interpolation of a possibly-absent JS value: `undefined`
interpolates as the literal text undefined. -/
def jsTemplate : Option JsVal → String
  | none => "undefined"
  | some v => jsValToString v

/-- JavaScript short-circuit or over possibly-absent values, as in
`user.id || user.userId` (server.js line 232). -/
def jsOr (a b : Option JsVal) : Option JsVal :=
  if truthy a then a else b

/-- Property access on an arbitrary JS value: only objects have
properties; access on primitives yields `undefined`.  (Access on `null`
throws in JS; the dashboard handler treats that case separately.) -/
def jget : JsVal → String → Option JsVal
  | .obj fields, key => jlookup fields key
  | _, _ => none

/-- An upstream HTTP response as delivered by axios on transport-level
success: status code, response headers and parsed body. -/
structure HttpResponse where
  status : Nat
  headers : List (String × String)
  data : JsVal

/-- Transport-level outcome of one outbound HTTP call: either a response
(any status code) or a transport failure (connection refused, DNS
failure, timeout), carrying the error message. -/
inductive AxiosOutcome where
  | response (resp : HttpResponse)
  | transportFailure (message : String)

/-- Descriptor of one outbound axios call exactly as configured at the
call site: method, absolute URL, request headers, request body, the
axios `params` option (query parameters), the `timeout` option in
milliseconds (`none` when the call site sets no timeout, which axios
treats as unbounded), and whether `validateStatus` was overridden to
accept every status. -/
structure OutboundCall where
  method : String
  url : String
  headers : List (String × String)
  body : Option JsVal
  queryParams : List (String × String)
  timeout : Option Nat
  validateAll : Bool

/-- The behaviour of the upstream services in one request: what outcome
each outbound call gets. -/
def Upstreams : Type := OutboundCall → AxiosOutcome

/-- Awaiting an axios promise: it rejects on transport failure, and —
unless the call site passed `validateStatus: () => true` — also on any
status outside the 2xx range (the axios default). -/
def axiosAwait (call : OutboundCall) (outcome : AxiosOutcome) : Except String HttpResponse :=
  match outcome with
  | .transportFailure msg => .error msg
  | .response resp =>
      if call.validateAll || (decide (200 ≤ resp.status) && decide (resp.status < 300)) then
        .ok resp
      else
        .error ("Request failed with status code " ++ toString resp.status)

/-- A settled promise as classified by `Promise.allSettled`. -/
inductive Settled (α : Type) where
  | fulfilled (value : α)
  | rejected (reason : String)

/-- Whether a settled promise is fulfilled. -/
def Settled.isFulfilled {α : Type} : Settled α → Bool
  | .fulfilled _ => true
  | .rejected _ => false

/-- Settling a promise for `Promise.allSettled`. -/
def settle {α : Type} : Except String α → Settled α
  | .ok v => .fulfilled v
  | .error msg => .rejected msg

/-- The combinator written at each health probe site (server.js lines
64 to 66): attaching a catch handler returning null turns every
rejection — transport failure included — into fulfilment with null
before `Promise.allSettled` ever classifies the promise. -/
def catchToNull (p : Except String HttpResponse) : Except String (Option HttpResponse) :=
  match p with
  | .ok resp => .ok (some resp)
  | .error _ => .ok none

/-- The gateway response sent back to the caller: status, the headers
the gateway set, and the JSON body. -/
structure GatewayResponse where
  status : Nat
  headers : List (String × String)
  body : JsVal

/-- Field lookup in a JSON-object gateway body. -/
def GatewayResponse.bodyField (r : GatewayResponse) (key : String) : Option JsVal :=
  match r.body with
  | .obj fields => jlookup fields key
  | _ => none

/-- Strips one trailing slash, mirroring the regex replace applied to
each base-URL environment variable (server.js lines 12 to 14). -/
def stripTrailingSlash (s : String) : String :=
  if s.endsWith "/" then s.dropRight 1 else s

/-- The three upstream base URLs, fixed at startup. -/
structure Config where
  AUTH_BASE_URL : String
  ROUTE_BASE_URL : String
  SUB_BASE_URL : String

/-- Configuration loading from the three environment variables. -/
def Config.ofEnv (auth route sub : String) : Config :=
  { AUTH_BASE_URL := stripTrailingSlash auth
  , ROUTE_BASE_URL := stripTrailingSlash route
  , SUB_BASE_URL := stripTrailingSlash sub }

/-- An inbound HTTP request as Express presents it: method, original
URL (path plus query string), headers (Node lowercases header names),
and the JSON object body parsed by express.json. -/
structure InboundRequest where
  method : String
  originalUrl : String
  headers : List (String × String)
  body : List (String × JsVal)

/-- Header lookup, as `req.headers` bracket access on the (lowercase)
header name. -/
def getHeader (headers : List (String × String)) (key : String) : Option String :=
  (headers.find? (fun kv => kv.1 == key)).map Prod.snd

/-- Copying the inbound headers and deleting the host entry, as done
before forwarding (server.js lines 27 to 28 and 182 to 183). -/
def dropHost (headers : List (String × String)) : List (String × String) :=
  headers.filter (fun kv => kv.1 != "host")

/-- The fixed response-header allow-list (server.js lines 43 and 196). -/
def passHeaders : List String := ["etag", "location", "link", "content-type"]

/-- ASCII lowercasing of one character, as toLowerCase acts on the
ASCII header names compared here. -/
def charLower (c : Char) : Char :=
  if 65 ≤ c.toNat ∧ c.toNat ≤ 90 then Char.ofNat (c.toNat + 32) else c

/-- Lowercasing of a header name, modelling the toLowerCase call at
server.js lines 45 and 198 (header names are ASCII). -/
def strLower (s : String) : String := String.mk (s.data.map charLower)

/-- Republishing only allow-listed upstream headers, matched
case-insensitively on the header name (server.js lines 44 to 48 and
197 to 201). -/
def filterHeaders (headers : List (String × String)) : List (String × String) :=
  headers.filter (fun kv => passHeaders.contains (strLower kv.1))

/-- The outbound call configured by the generic proxy (server.js lines
30 to 37): inbound method, base URL concatenated with the original URL,
inbound headers minus host, inbound body, every status accepted, 30s
timeout. -/
def proxyCall (baseUrl : String) (req : InboundRequest) : OutboundCall :=
  { method := req.method
  , url := baseUrl ++ req.originalUrl
  , headers := dropHost req.headers
  , body := some (.obj req.body)
  , queryParams := []
  , timeout := some 30000
  , validateAll := true }

/-- The generic proxy handler produced by createProxy (server.js lines
20 to 59): forward the request, republish the status, allow-listed
headers and body; on transport failure answer 502 DOWNSTREAM_ERROR. -/
def proxyHandler (baseUrl : String) (req : InboundRequest) (upstreams : Upstreams) :
    GatewayResponse × List OutboundCall :=
  let call := proxyCall baseUrl req
  match axiosAwait call (upstreams call) with
  | .ok resp =>
      ({ status := resp.status, headers := filterHeaders resp.headers, body := resp.data }, [call])
  | .error msg =>
      ({ status := 502
       , headers := []
       , body := .obj [("error", .str "DOWNSTREAM_ERROR"),
                       ("message", .str ("Composite failed to reach downstream: " ++ msg))] },
       [call])

/-- A health probe call (server.js lines 64 to 66): a plain axios.get
with default status validation and no timeout option. -/
def healthProbeCall (baseUrl : String) : OutboundCall :=
  { method := "GET"
  , url := baseUrl ++ "/health"
  , headers := []
  , body := none
  , queryParams := []
  , timeout := none
  , validateAll := false }

/-- Rendering one allSettled slot as up or down (server.js lines 72 to
74). -/
def upOrDown {α : Type} (s : Settled α) : String :=
  if s.isFulfilled then "up" else "down"

/-- The GET /health handler (server.js lines 61 to 80): three probes
issued concurrently, each wrapped in a catch-to-null, joined with
Promise.allSettled, then summarised as a liveness report with gateway
status 200. -/
def healthHandler (cfg : Config) (upstreams : Upstreams) :
    GatewayResponse × List OutboundCall :=
  let authCall := healthProbeCall cfg.AUTH_BASE_URL
  let routeCall := healthProbeCall cfg.ROUTE_BASE_URL
  let subCall := healthProbeCall cfg.SUB_BASE_URL
  let auth := settle (catchToNull (axiosAwait authCall (upstreams authCall)))
  let route := settle (catchToNull (axiosAwait routeCall (upstreams routeCall)))
  let sub := settle (catchToNull (axiosAwait subCall (upstreams subCall)))
  ({ status := 200
   , headers := []
   , body := .obj
       [("status", .str "ok"),
        ("services", .obj
          [("auth", .str (upOrDown auth)),
           ("route", .str (upOrDown route)),
           ("subscription", .str (upOrDown sub))])] },
   [authCall, routeCall, subCall])

/-- The result bound by the FK-gate probe combinator (server.js lines
119 to 133): a probe call is awaited with every status accepted, and a
catch handler maps a transport failure to a synthetic object with
status 503 and an error body, so the joined pair always carries a
status. -/
structure ProbeResult where
  status : Nat
  data : JsVal

/-- Awaiting one FK-gate probe through its catch handler (server.js
lines 121 to 132). -/
def probeResult (call : OutboundCall) (outcome : AxiosOutcome) : ProbeResult :=
  match axiosAwait call outcome with
  | .ok resp => { status := resp.status, data := resp.data }
  | .error msg =>
      { status := 503
      , data := .obj [("error", .str "Service unavailable"), ("message", .str msg)] }

/-- The headers object passed to each FK-gate probe: the authorization
header when the inbound request carried one, otherwise empty
(server.js lines 122 and 129). -/
def probeHeaders (authHeader : Option String) : List (String × String) :=
  match authHeader with
  | some h => [("Authorization", h)]
  | none => []

/-- The user existence probe (server.js lines 121 to 125): GET to the
auth base URL at /api/users/ followed by the interpolated userId, with
every status accepted and a 10s timeout. -/
def userProbeCall (cfg : Config) (userId : Option JsVal) (authHeader : Option String) :
    OutboundCall :=
  { method := "GET"
  , url := cfg.AUTH_BASE_URL ++ "/api/users/" ++ jsTemplate userId
  , headers := probeHeaders authHeader
  , body := none
  , queryParams := []
  , timeout := some 10000
  , validateAll := true }

/-- The route existence probe (server.js lines 128 to 132): GET to the
route base URL at /api/routes/ followed by the interpolated routeId,
with every status accepted and a 10s timeout. -/
def routeProbeCall (cfg : Config) (routeId : Option JsVal) (authHeader : Option String) :
    OutboundCall :=
  { method := "GET"
  , url := cfg.ROUTE_BASE_URL ++ "/api/routes/" ++ jsTemplate routeId
  , headers := probeHeaders authHeader
  , body := none
  , queryParams := []
  , timeout := some 10000
  , validateAll := true }

/-- The final delegation call of the FK gate (server.js lines 185 to
192): POST the original body and headers minus host to the subscription
upstream, every status accepted, 30s timeout. -/
def fkDelegationCall (cfg : Config) (req : InboundRequest) : OutboundCall :=
  { method := "POST"
  , url := cfg.SUB_BASE_URL ++ "/api/subscriptions"
  , headers := dropHost req.headers
  , body := some (.obj req.body)
  , queryParams := []
  , timeout := some 30000
  , validateAll := true }

/-- The POST /api/subscriptions handler (server.js lines 97 to 211).
The elapsed validation time is an ambient input of the handler (the
source measures it with Date.now); it only appears inside violation
bodies.  Steps: field presence guard, two concurrent existence probes
joined by Promise.all, the fixed four-way precedence chain on the
joined pair, then delegation to the subscription upstream. -/
def postSubscriptions (cfg : Config) (req : InboundRequest) (validationTimeMs : Nat)
    (upstreams : Upstreams) : GatewayResponse × List OutboundCall :=
  let userId := jlookup req.body "userId"
  let routeId := jlookup req.body "routeId"
  let semester := jlookup req.body "semester"
  let authHeader := getHeader req.headers "authorization"
  if !truthy userId || !truthy routeId || !truthy semester then
    ({ status := 400
     , headers := []
     , body := .obj [("error", .str "VALIDATION_ERROR"),
                     ("message", .str "userId, routeId, and semester are required")] },
     [])
  else
    let userCall := userProbeCall cfg userId authHeader
    let routeCall := routeProbeCall cfg routeId authHeader
    let userResult := probeResult userCall (upstreams userCall)
    let routeResult := probeResult routeCall (upstreams routeCall)
    if userResult.status == 404 then
      ({ status := 400
       , headers := []
       , body := .obj [("error", .str "FOREIGN_KEY_VIOLATION"),
                       ("message", .str ("User with ID " ++ jsTemplate userId ++ " does not exist")),
                       ("field", .str "userId"),
                       ("value", userId.getD .null),
                       ("validationTimeMs", .num validationTimeMs)] },
       [userCall, routeCall])
    else if 500 ≤ userResult.status then
      ({ status := 503
       , headers := []
       , body := .obj [("error", .str "SERVICE_UNAVAILABLE"),
                       ("message", .str "User service is unavailable for validation"),
                       ("service", .str "auth-user-service")] },
       [userCall, routeCall])
    else if routeResult.status == 404 then
      ({ status := 400
       , headers := []
       , body := .obj [("error", .str "FOREIGN_KEY_VIOLATION"),
                       ("message", .str ("Route with ID " ++ jsTemplate routeId ++ " does not exist")),
                       ("field", .str "routeId"),
                       ("value", routeId.getD .null),
                       ("validationTimeMs", .num validationTimeMs)] },
       [userCall, routeCall])
    else if 500 ≤ routeResult.status then
      ({ status := 503
       , headers := []
       , body := .obj [("error", .str "SERVICE_UNAVAILABLE"),
                       ("message", .str "Route service is unavailable for validation"),
                       ("service", .str "route-service")] },
       [userCall, routeCall])
    else
      let subCall := fkDelegationCall cfg req
      match axiosAwait subCall (upstreams subCall) with
      | .ok resp =>
          ({ status := resp.status, headers := filterHeaders resp.headers, body := resp.data },
           [userCall, routeCall, subCall])
      | .error msg =>
          ({ status := 502
           , headers := []
           , body := .obj [("error", .str "COMPOSITE_ERROR"),
                           ("message", .str ("Failed to process subscription: " ++ msg))] },
           [userCall, routeCall, subCall])

/-- The profile fetch of the dashboard (server.js lines 227 to 230):
plain axios.get with default status validation and no timeout option,
carrying the authorization header. -/
def profileCall (cfg : Config) (authHeader : String) : OutboundCall :=
  { method := "GET"
  , url := cfg.AUTH_BASE_URL ++ "/api/users/profile"
  , headers := [("Authorization", authHeader)]
  , body := none
  , queryParams := []
  , timeout := none
  , validateAll := false }

/-- The subscriptions-by-user fan-out call (server.js lines 235 to
237). -/
def subsByUserCall (cfg : Config) (userId : Option JsVal) (authHeader : String) :
    OutboundCall :=
  { method := "GET"
  , url := cfg.SUB_BASE_URL ++ "/api/subscriptions/user/" ++ jsTemplate userId
  , headers := [("Authorization", authHeader)]
  , body := none
  , queryParams := []
  , timeout := none
  , validateAll := false }

/-- The all-routes fan-out call (server.js lines 238 to 240). -/
def allRoutesCall (cfg : Config) (authHeader : String) : OutboundCall :=
  { method := "GET"
  , url := cfg.ROUTE_BASE_URL ++ "/api/routes"
  , headers := [("Authorization", authHeader)]
  , body := none
  , queryParams := []
  , timeout := none
  , validateAll := false }

/-- The trips fan-out call (server.js lines 241 to 243).  In the source
the axios params option is written inside the headers object, so axios
receives no params option at all: the URL carries no query string, the
queryParams slot is empty, and instead a header named params is sent
whose value is the JS string conversion of the object holding userId. -/
def tripsCall (cfg : Config) (userId : Option JsVal) (authHeader : String) : OutboundCall :=
  { method := "GET"
  , url := cfg.SUB_BASE_URL ++ "/api/trips"
  , headers := [("Authorization", authHeader),
                ("params", jsValToString (.obj [("userId", userId.getD .null)]))]
  , body := none
  , queryParams := []
  , timeout := none
  , validateAll := false }

/-- The fixed failure response of the dashboard catch block (server.js
lines 252 to 258). -/
def dashboardFailedResponse : GatewayResponse :=
  { status := 500
  , headers := []
  , body := .obj [("error", .str "DASHBOARD_FAILED"),
                  ("message", .str "Failed to build commuter dashboard")] }

/-- The GET /api/commuter/dashboard handler (server.js lines 217 to
259): require an authorization header, fetch the profile, extract the
identity via id-or-userId, fan out three concurrent calls joined by
Promise.all, and either combine all four bodies or answer with the
fixed DASHBOARD_FAILED response.  Property access on a null profile
body throws in JS and lands in the same catch block before any fan-out
call is issued. -/
def dashboardHandler (cfg : Config) (req : InboundRequest) (upstreams : Upstreams) :
    GatewayResponse × List OutboundCall :=
  match getHeader req.headers "authorization" with
  | none =>
      ({ status := 401
       , headers := []
       , body := .obj [("error", .str "UNAUTHORIZED"),
                       ("message", .str "Missing Authorization header")] },
       [])
  | some authHeader =>
      let pCall := profileCall cfg authHeader
      match axiosAwait pCall (upstreams pCall) with
      | .error _ => (dashboardFailedResponse, [pCall])
      | .ok userResp =>
          match userResp.data with
          | .null => (dashboardFailedResponse, [pCall])
          | user =>
              let userId := jsOr (jget user "id") (jget user "userId")
              let sCall := subsByUserCall cfg userId authHeader
              let rCall := allRoutesCall cfg authHeader
              let tCall := tripsCall cfg userId authHeader
              match axiosAwait sCall (upstreams sCall), axiosAwait rCall (upstreams rCall),
                    axiosAwait tCall (upstreams tCall) with
              | .ok subsResp, .ok routesResp, .ok tripsResp =>
                  ({ status := 200
                   , headers := []
                   , body := .obj [("user", user),
                                   ("subscriptions", subsResp.data),
                                   ("routes", routesResp.data),
                                   ("trips", tripsResp.data)] },
                   [pCall, sCall, rCall, tCall])
              | _, _, _ => (dashboardFailedResponse, [pCall, sCall, rCall, tCall])

/-- A concrete configuration for concrete evaluations, with the three
base addresses already free of trailing slashes. -/
def cfgX : Config :=
  { AUTH_BASE_URL := "http://auth"
  , ROUTE_BASE_URL := "http://route"
  , SUB_BASE_URL := "http://sub" }

/-- An upstream environment in which every outbound call is refused at
the transport level. -/
def allDownUpstreams : Upstreams := fun _ => .transportFailure "connect ECONNREFUSED"

/-- An upstream environment in which every call returns status 404. -/
def allNotFoundUpstreams : Upstreams :=
  fun _ => .response { status := 404, headers := [], data := .null }

/-- An upstream environment in which every call returns status 200 with
a profile-shaped body carrying id 14. -/
def allOkUpstreams : Upstreams :=
  fun _ => .response { status := 200, headers := [], data := .obj [("id", .num 14)] }

/-- An upstream environment in which exactly the subscriptions-by-user
fan-out call for user 14 is refused at the transport level and every
other call returns status 200 with the profile body. -/
def subsDownUpstreams : Upstreams := fun call =>
  if call.url == "http://sub/api/subscriptions/user/14" then
    .transportFailure "connect ECONNREFUSED"
  else
    .response { status := 200, headers := [], data := .obj [("id", .num 14)] }

/-- An upstream environment whose responses carry one allow-listed and
two non-allow-listed headers. -/
def headeredUpstreams : Upstreams :=
  fun _ => .response { status := 200
                     , headers := [("ETag", "abc"), ("X-Secret", "s"), ("content-length", "12")]
                     , data := .null }

/-- The spec example body in which both referenced ids point at missing
entities. -/
def reqBothMissing : InboundRequest :=
  { method := "POST", originalUrl := "/api/subscriptions", headers := []
  , body := [("userId", .num 99999), ("routeId", .num 99999), ("semester", .str "Fall 2025")] }

/-- The spec example body with routeId absent. -/
def reqNoRoute : InboundRequest :=
  { method := "POST", originalUrl := "/api/subscriptions", headers := []
  , body := [("userId", .num 14), ("semester", .str "Fall 2025")] }

/-- A body whose userId is the falsy number zero. -/
def reqZeroUser : InboundRequest :=
  { method := "POST", originalUrl := "/api/subscriptions", headers := []
  , body := [("userId", .num 0), ("routeId", .num 1), ("semester", .str "Fall 2025")] }

/-- A body whose routeId is the falsy number zero. -/
def reqZeroRoute : InboundRequest :=
  { method := "POST", originalUrl := "/api/subscriptions", headers := []
  , body := [("userId", .num 14), ("routeId", .num 0), ("semester", .str "Fall 2025")] }

/-- A body whose semester is the falsy empty string. -/
def reqEmptySemester : InboundRequest :=
  { method := "POST", originalUrl := "/api/subscriptions", headers := []
  , body := [("userId", .num 14), ("routeId", .num 1), ("semester", .str "")] }

/-- A well-formed subscription request carrying an authorization
header. -/
def reqSubOk : InboundRequest :=
  { method := "POST", originalUrl := "/api/subscriptions"
  , headers := [("authorization", "Bearer tok")]
  , body := [("userId", .num 14), ("routeId", .num 1), ("semester", .str "Fall 2025")] }

/-- A dashboard request carrying an authorization header. -/
def reqDash : InboundRequest :=
  { method := "GET", originalUrl := "/api/commuter/dashboard"
  , headers := [("authorization", "Bearer tok")], body := [] }

/-- C8: the GET /health handler always answers with gateway status 200
and body status ok, for every configuration and every combination of
probe outcomes, including all services failing. -/
theorem health_always_ok (cfg : Config) (upstreams : Upstreams) :
    (healthHandler cfg upstreams).1.status = 200 ∧
    (healthHandler cfg upstreams).1.bodyField "status" = some (.str "ok") :=
  ⟨rfl, rfl⟩

/-- C2: evaluation of the health handler in an environment in which all
three probes are refused at the transport level.  The claim says each
such service is reported down; the source wraps every probe in a
catch-to-null combinator, so the rejection is converted into fulfilment
before Promise.allSettled classifies it and every service is reported
up regardless of outcome. -/
theorem health_reports_up_on_transport_failure :
    (healthHandler cfgX allDownUpstreams).1.bodyField "services" =
      some (.obj [("auth", .str "up"), ("route", .str "up"), ("subscription", .str "up")]) ∧
    (healthHandler cfgX allOkUpstreams).1.bodyField "services" =
      some (.obj [("auth", .str "up"), ("route", .str "up"), ("subscription", .str "up")]) :=
  ⟨rfl, rfl⟩

/-- C10: the field presence guard uses JS falsiness, so a zero userId,
a zero routeId or an empty semester is rejected with 400
VALIDATION_ERROR and no outbound call, exactly like an absent field. -/
theorem fkGate_falsy_zero_rejected :
    (postSubscriptions cfgX reqZeroUser 0 allOkUpstreams).1.status = 400 ∧
    (postSubscriptions cfgX reqZeroUser 0 allOkUpstreams).1.bodyField "error" =
      some (.str "VALIDATION_ERROR") ∧
    (postSubscriptions cfgX reqZeroUser 0 allOkUpstreams).2 = [] ∧
    (postSubscriptions cfgX reqZeroRoute 0 allOkUpstreams).1.status = 400 ∧
    (postSubscriptions cfgX reqZeroRoute 0 allOkUpstreams).1.bodyField "error" =
      some (.str "VALIDATION_ERROR") ∧
    (postSubscriptions cfgX reqZeroRoute 0 allOkUpstreams).2 = [] ∧
    (postSubscriptions cfgX reqEmptySemester 0 allOkUpstreams).1.status = 400 ∧
    (postSubscriptions cfgX reqEmptySemester 0 allOkUpstreams).1.bodyField "error" =
      some (.str "VALIDATION_ERROR") ∧
    (postSubscriptions cfgX reqEmptySemester 0 allOkUpstreams).2 = [] :=
  ⟨rfl, rfl, rfl, rfl, rfl, rfl, rfl, rfl, rfl⟩

/-- C4: whenever the userId, routeId or semester field of the body is
absent or falsy, the gate answers 400 VALIDATION_ERROR and issues no
outbound call at all: neither probe runs and nothing is delegated. -/
theorem fkGate_missing_field_no_calls (cfg : Config) (req : InboundRequest)
    (t : Nat) (upstreams : Upstreams)
    (h : (truthy (jlookup req.body "userId") && truthy (jlookup req.body "routeId") &&
          truthy (jlookup req.body "semester")) = false) :
    (postSubscriptions cfg req t upstreams).1.status = 400 ∧
    (postSubscriptions cfg req t upstreams).1.bodyField "error" =
      some (.str "VALIDATION_ERROR") ∧
    (postSubscriptions cfg req t upstreams).2 = [] := by
  cases hu : truthy (jlookup req.body "userId") <;>
    cases hr : truthy (jlookup req.body "routeId") <;>
      cases hs : truthy (jlookup req.body "semester") <;>
        simp_all [postSubscriptions, GatewayResponse.bodyField, jlookup]

/-- Witness for C4 at the spec example with routeId absent. -/
theorem fkGate_missing_field_no_calls_witness :
    (postSubscriptions cfgX reqNoRoute 0 allOkUpstreams).1.status = 400 ∧
    (postSubscriptions cfgX reqNoRoute 0 allOkUpstreams).1.bodyField "error" =
      some (.str "VALIDATION_ERROR") ∧
    (postSubscriptions cfgX reqNoRoute 0 allOkUpstreams).2 = [] :=
  fkGate_missing_field_no_calls cfgX reqNoRoute 0 allOkUpstreams rfl

/-- C1: when both existence probes come back with status 404, the gate
answers the userId violation — 400, error FOREIGN_KEY_VIOLATION, field
userId — never the routeId violation.  The handler decides on the pair
joined by Promise.all, so the decision is a function of the two
outcomes only and cannot depend on which probe resolved first; the
precedence chain tests user-404 before user-500, route-404 and
route-500 in that fixed order. -/
theorem fkGate_both_404_reports_userId (cfg : Config) (req : InboundRequest)
    (t : Nat) (upstreams : Upstreams) (uCall rCall : OutboundCall)
    (huc : uCall = userProbeCall cfg (jlookup req.body "userId")
                     (getHeader req.headers "authorization"))
    (hrc : rCall = routeProbeCall cfg (jlookup req.body "routeId")
                     (getHeader req.headers "authorization"))
    (htu : truthy (jlookup req.body "userId") = true)
    (htr : truthy (jlookup req.body "routeId") = true)
    (hts : truthy (jlookup req.body "semester") = true)
    (hu : (probeResult uCall (upstreams uCall)).status = 404)
    (hr : (probeResult rCall (upstreams rCall)).status = 404) :
    (postSubscriptions cfg req t upstreams).1.status = 400 ∧
    (postSubscriptions cfg req t upstreams).1.bodyField "error" =
      some (.str "FOREIGN_KEY_VIOLATION") ∧
    (postSubscriptions cfg req t upstreams).1.bodyField "field" = some (.str "userId") := by
  subst huc hrc
  simp only [postSubscriptions, htu, htr, hts, Bool.not_true, Bool.or_self, Bool.false_or,
    if_false, hu, hr]
  exact ⟨rfl, rfl, rfl⟩

/-- Witness for C1 at the spec example body in an environment in which
both probes answer 404. -/
theorem fkGate_both_404_reports_userId_witness :
    (postSubscriptions cfgX reqBothMissing 7 allNotFoundUpstreams).1.status = 400 ∧
    (postSubscriptions cfgX reqBothMissing 7 allNotFoundUpstreams).1.bodyField "error" =
      some (.str "FOREIGN_KEY_VIOLATION") ∧
    (postSubscriptions cfgX reqBothMissing 7 allNotFoundUpstreams).1.bodyField "field" =
      some (.str "userId") :=
  fkGate_both_404_reports_userId cfgX reqBothMissing 7 allNotFoundUpstreams _ _
    rfl rfl rfl rfl rfl rfl rfl

/-- C9: any probe status other than exactly 404 and below 500 — such as
401 or 403 — passes validation: the gate issues the delegation call to
the subscription upstream and republishes its status, allow-listed
headers and body, answering 502 COMPOSITE_ERROR only when the
delegation itself fails at the transport level. -/
theorem fkGate_non404_sub500_delegates (cfg : Config) (req : InboundRequest)
    (t : Nat) (upstreams : Upstreams) (uCall rCall : OutboundCall)
    (huc : uCall = userProbeCall cfg (jlookup req.body "userId")
                     (getHeader req.headers "authorization"))
    (hrc : rCall = routeProbeCall cfg (jlookup req.body "routeId")
                     (getHeader req.headers "authorization"))
    (htu : truthy (jlookup req.body "userId") = true)
    (htr : truthy (jlookup req.body "routeId") = true)
    (hts : truthy (jlookup req.body "semester") = true)
    (hu404 : (probeResult uCall (upstreams uCall)).status ≠ 404)
    (hu500 : (probeResult uCall (upstreams uCall)).status < 500)
    (hr404 : (probeResult rCall (upstreams rCall)).status ≠ 404)
    (hr500 : (probeResult rCall (upstreams rCall)).status < 500) :
    (postSubscriptions cfg req t upstreams).2 =
      [uCall, rCall, fkDelegationCall cfg req] ∧
    (∀ resp, upstreams (fkDelegationCall cfg req) = .response resp →
       (postSubscriptions cfg req t upstreams).1 =
         { status := resp.status, headers := filterHeaders resp.headers, body := resp.data }) ∧
    (∀ msg, upstreams (fkDelegationCall cfg req) = .transportFailure msg →
       (postSubscriptions cfg req t upstreams).1.status = 502 ∧
       (postSubscriptions cfg req t upstreams).1.bodyField "error" =
         some (.str "COMPOSITE_ERROR")) := by
  subst huc hrc
  simp only [postSubscriptions, htu, htr, hts, Bool.not_true, Bool.or_self, Bool.false_or,
    if_false, beq_iff_eq, if_neg hu404, if_neg (Nat.not_le.mpr hu500),
    if_neg hr404, if_neg (Nat.not_le.mpr hr500)]
  refine ⟨?_, ?_, ?_⟩
  · cases haw : axiosAwait (fkDelegationCall cfg req) (upstreams (fkDelegationCall cfg req)) <;>
      simp [haw]
  · intro resp hresp
    simp only [fkDelegationCall] at hresp
    simp [axiosAwait, fkDelegationCall, hresp]
  · intro msg hmsg
    simp only [fkDelegationCall] at hmsg
    simp [axiosAwait, fkDelegationCall, hmsg, GatewayResponse.bodyField, jlookup]

/-- Witness for C9: a 200 pair of probe outcomes delegates and the
upstream answer is republished. -/
theorem fkGate_non404_sub500_delegates_witness :
    (postSubscriptions cfgX reqSubOk 3 allOkUpstreams).2 =
      [userProbeCall cfgX (some (.num 14)) (some "Bearer tok"),
       routeProbeCall cfgX (some (.num 1)) (some "Bearer tok"),
       fkDelegationCall cfgX reqSubOk] ∧
    (postSubscriptions cfgX reqSubOk 3 allOkUpstreams).1 =
      { status := 200, headers := [], body := .obj [("id", .num 14)] } := by
  have h := fkGate_non404_sub500_delegates cfgX reqSubOk 3 allOkUpstreams _ _
    rfl rfl rfl rfl rfl (by decide) (by decide) (by decide) (by decide)
  exact ⟨h.1, h.2.1 { status := 200, headers := [], data := .obj [("id", .num 14)] } rfl⟩

/-- C3: once the profile fetch succeeded, failure of any one of the
three fan-out calls — rejection on a non-2xx status or on a transport
failure, which is exactly when awaiting the call yields an error —
makes the whole request answer the fixed 500 DASHBOARD_FAILED
response, whose body carries no upstream data at all; and only when
all three fan-out calls succeed is the combined
user-subscriptions-routes-trips body returned. -/
theorem dashboard_all_or_nothing (cfg : Config) (req : InboundRequest)
    (upstreams : Upstreams) (a : String) (userResp : HttpResponse)
    (uid : Option JsVal) (sCall rCall tCall : OutboundCall)
    (ha : getHeader req.headers "authorization" = some a)
    (hp : axiosAwait (profileCall cfg a) (upstreams (profileCall cfg a)) = .ok userResp)
    (hnn : userResp.data ≠ .null)
    (huid : uid = jsOr (jget userResp.data "id") (jget userResp.data "userId"))
    (hsc : sCall = subsByUserCall cfg uid a)
    (hrc : rCall = allRoutesCall cfg a)
    (htc : tCall = tripsCall cfg uid a) :
    ((∃ m, axiosAwait sCall (upstreams sCall) = .error m) ∨
     (∃ m, axiosAwait rCall (upstreams rCall) = .error m) ∨
     (∃ m, axiosAwait tCall (upstreams tCall) = .error m) →
       (dashboardHandler cfg req upstreams).1 = dashboardFailedResponse) ∧
    (∀ subsResp routesResp tripsResp,
       axiosAwait sCall (upstreams sCall) = .ok subsResp →
       axiosAwait rCall (upstreams rCall) = .ok routesResp →
       axiosAwait tCall (upstreams tCall) = .ok tripsResp →
       (dashboardHandler cfg req upstreams).1 =
         { status := 200
         , headers := []
         , body := .obj [("user", userResp.data),
                         ("subscriptions", subsResp.data),
                         ("routes", routesResp.data),
                         ("trips", tripsResp.data)] }) := by
  subst huid hsc hrc htc
  obtain ⟨ustatus, uheaders, udata⟩ := userResp
  simp only [dashboardHandler, ha, hp]
  cases udata with
  | null => exact absurd rfl hnn
  | str s =>
      constructor
      · rintro (⟨m, hm⟩ | ⟨m, hm⟩ | ⟨m, hm⟩) <;>
          simp only [hm] <;>
            cases h1 : axiosAwait (subsByUserCall cfg
                (jsOr (jget (.str s) "id") (jget (.str s) "userId")) a)
                (upstreams (subsByUserCall cfg
                  (jsOr (jget (.str s) "id") (jget (.str s) "userId")) a)) <;>
              cases h2 : axiosAwait (allRoutesCall cfg a) (upstreams (allRoutesCall cfg a)) <;>
                simp_all
      · intro subsResp routesResp tripsResp h1 h2 h3
        simp [h1, h2, h3]
  | num n =>
      constructor
      · rintro (⟨m, hm⟩ | ⟨m, hm⟩ | ⟨m, hm⟩) <;>
          simp only [hm] <;>
            cases h1 : axiosAwait (subsByUserCall cfg
                (jsOr (jget (.num n) "id") (jget (.num n) "userId")) a)
                (upstreams (subsByUserCall cfg
                  (jsOr (jget (.num n) "id") (jget (.num n) "userId")) a)) <;>
              cases h2 : axiosAwait (allRoutesCall cfg a) (upstreams (allRoutesCall cfg a)) <;>
                simp_all
      · intro subsResp routesResp tripsResp h1 h2 h3
        simp [h1, h2, h3]
  | boolean b =>
      constructor
      · rintro (⟨m, hm⟩ | ⟨m, hm⟩ | ⟨m, hm⟩) <;>
          simp only [hm] <;>
            cases h1 : axiosAwait (subsByUserCall cfg
                (jsOr (jget (.boolean b) "id") (jget (.boolean b) "userId")) a)
                (upstreams (subsByUserCall cfg
                  (jsOr (jget (.boolean b) "id") (jget (.boolean b) "userId")) a)) <;>
              cases h2 : axiosAwait (allRoutesCall cfg a) (upstreams (allRoutesCall cfg a)) <;>
                simp_all
      · intro subsResp routesResp tripsResp h1 h2 h3
        simp [h1, h2, h3]
  | obj fields =>
      constructor
      · rintro (⟨m, hm⟩ | ⟨m, hm⟩ | ⟨m, hm⟩) <;>
          simp only [hm] <;>
            cases h1 : axiosAwait (subsByUserCall cfg
                (jsOr (jget (.obj fields) "id") (jget (.obj fields) "userId")) a)
                (upstreams (subsByUserCall cfg
                  (jsOr (jget (.obj fields) "id") (jget (.obj fields) "userId")) a)) <;>
              cases h2 : axiosAwait (allRoutesCall cfg a) (upstreams (allRoutesCall cfg a)) <;>
                simp_all
      · intro subsResp routesResp tripsResp h1 h2 h3
        simp [h1, h2, h3]
  | arr elems =>
      constructor
      · rintro (⟨m, hm⟩ | ⟨m, hm⟩ | ⟨m, hm⟩) <;>
          simp only [hm] <;>
            cases h1 : axiosAwait (subsByUserCall cfg
                (jsOr (jget (.arr elems) "id") (jget (.arr elems) "userId")) a)
                (upstreams (subsByUserCall cfg
                  (jsOr (jget (.arr elems) "id") (jget (.arr elems) "userId")) a)) <;>
              cases h2 : axiosAwait (allRoutesCall cfg a) (upstreams (allRoutesCall cfg a)) <;>
                simp_all
      · intro subsResp routesResp tripsResp h1 h2 h3
        simp [h1, h2, h3]

/-- Witness for C3: the subscriptions fan-out call is refused while
profile, routes and trips would all succeed, and the whole dashboard
answer is the fixed DASHBOARD_FAILED response. -/
theorem dashboard_all_or_nothing_witness :
    (dashboardHandler cfgX reqDash subsDownUpstreams).1 = dashboardFailedResponse :=
  (dashboard_all_or_nothing cfgX reqDash subsDownUpstreams "Bearer tok"
      { status := 200, headers := [], data := .obj [("id", .num 14)] }
      (some (.num 14)) _ _ _ rfl (by rfl) (fun h => JsVal.noConfusion h) rfl rfl rfl rfl).1
    (Or.inl ⟨"connect ECONNREFUSED", by rfl⟩)

/-- C5: the header allow-list invariant.  Every header republished by
the filter has an allow-listed lowercased name and its upstream value;
headers on the allow-list are republished; every header appearing in a
proxy or FK-gate response is allow-listed; and on a completed proxied
call the republished headers are exactly the filtered upstream
headers. -/
theorem header_allowlist_invariant :
    (∀ hs kv, kv ∈ filterHeaders hs → passHeaders.contains (strLower kv.1) = true) ∧
    (∀ hs kv, kv ∈ filterHeaders hs → kv ∈ hs) ∧
    (∀ hs kv, kv ∈ hs → passHeaders.contains (strLower kv.1) = true → kv ∈ filterHeaders hs) ∧
    (∀ baseUrl req upstreams kv,
       kv ∈ (proxyHandler baseUrl req upstreams).1.headers →
       passHeaders.contains (strLower kv.1) = true) ∧
    (∀ cfg req t upstreams kv,
       kv ∈ (postSubscriptions cfg req t upstreams).1.headers →
       passHeaders.contains (strLower kv.1) = true) ∧
    (∀ baseUrl req upstreams resp,
       upstreams (proxyCall baseUrl req) = .response resp →
       (proxyHandler baseUrl req upstreams).1.headers = filterHeaders resp.headers) := by
  refine ⟨?_, ?_, ?_, ?_, ?_, ?_⟩
  · intro hs kv h
    exact (List.mem_filter.mp h).2
  · intro hs kv h
    exact (List.mem_filter.mp h).1
  · intro hs kv h1 h2
    exact List.mem_filter.mpr ⟨h1, h2⟩
  · intro baseUrl req upstreams kv h
    simp only [proxyHandler] at h
    revert h
    cases axiosAwait (proxyCall baseUrl req) (upstreams (proxyCall baseUrl req)) <;>
      intro h <;> simp_all [filterHeaders, List.mem_filter]
  · intro cfg req t upstreams kv h
    simp only [postSubscriptions] at h
    repeat' split at h
    all_goals simp_all [filterHeaders, List.mem_filter]
  · intro baseUrl req upstreams resp h
    simp only [proxyCall] at h
    simp [proxyHandler, axiosAwait, proxyCall, h]

/-- Witness for C5: a completed upstream response with one allow-listed
and two non-allow-listed headers republishes exactly the filtered
header list. -/
theorem header_allowlist_invariant_witness :
    (proxyHandler "http://auth" reqDash headeredUpstreams).1.headers =
      filterHeaders [("ETag", "abc"), ("X-Secret", "s"), ("content-length", "12")] ∧
    filterHeaders [("ETag", "abc"), ("X-Secret", "s"), ("content-length", "12")] =
      [("ETag", "abc")] :=
  ⟨header_allowlist_invariant.2.2.2.2.2 "http://auth" reqDash headeredUpstreams
      { status := 200
      , headers := [("ETag", "abc"), ("X-Secret", "s"), ("content-length", "12")]
      , data := .null } rfl,
   rfl⟩

/-- C6: evaluation of the dashboard fan-out.  The claim says the userId
from the profile is sent as a query parameter of the trips request; in
the source the axios params option is misplaced inside the headers
object, so the trips call issued by the handler requests the bare
/api/trips URL with no query parameters and instead carries a header
named params whose value is the stringified object.  (All three
fan-out calls do carry the authorization token.) -/
theorem dashboard_trips_params_in_headers :
    (dashboardHandler cfgX reqDash allOkUpstreams).2 =
      [profileCall cfgX "Bearer tok",
       subsByUserCall cfgX (some (.num 14)) "Bearer tok",
       allRoutesCall cfgX "Bearer tok",
       tripsCall cfgX (some (.num 14)) "Bearer tok"] ∧
    (tripsCall cfgX (some (.num 14)) "Bearer tok").url = "http://sub/api/trips" ∧
    (tripsCall cfgX (some (.num 14)) "Bearer tok").queryParams = [] ∧
    (tripsCall cfgX (some (.num 14)) "Bearer tok").headers =
      [("Authorization", "Bearer tok"), ("params", "[object Object]")] :=
  ⟨rfl, rfl, rfl, rfl⟩

/-- C7 counterexample: the three probe calls issued by the health
handler carry no timeout option at all (axios treats a missing timeout
as unbounded), so the health probes are not timeout-bounded as the
claim states. -/
theorem health_probe_has_no_timeout :
    ((healthHandler cfgX allDownUpstreams).2.map (fun c => c.timeout)) =
      [none, none, none] :=
  rfl

/-- C7 as amended: proxying and the FK-gate delegation carry the 30s
timeout and the FK-gate existence probes carry the 10s timeout, but
the three health probes and the four dashboard calls are issued with
no timeout option, hence unbounded. -/
theorem outbound_timeouts :
    (∀ baseUrl req upstreams,
       ((proxyHandler baseUrl req upstreams).2.map (fun c => c.timeout)) = [some 30000]) ∧
    (∀ cfg req t upstreams,
       ((postSubscriptions cfg req t upstreams).2.map (fun c => c.timeout)) = [] ∨
       ((postSubscriptions cfg req t upstreams).2.map (fun c => c.timeout)) =
         [some 10000, some 10000] ∨
       ((postSubscriptions cfg req t upstreams).2.map (fun c => c.timeout)) =
         [some 10000, some 10000, some 30000]) ∧
    (∀ cfg upstreams,
       ((healthHandler cfg upstreams).2.map (fun c => c.timeout)) = [none, none, none]) ∧
    (∀ cfg req upstreams,
       ((dashboardHandler cfg req upstreams).2.map (fun c => c.timeout)) = [] ∨
       ((dashboardHandler cfg req upstreams).2.map (fun c => c.timeout)) = [none] ∨
       ((dashboardHandler cfg req upstreams).2.map (fun c => c.timeout)) =
         [none, none, none, none]) := by
  refine ⟨?_, ?_, ?_, ?_⟩
  · intro baseUrl req upstreams
    simp only [proxyHandler]
    cases axiosAwait (proxyCall baseUrl req) (upstreams (proxyCall baseUrl req)) <;> rfl
  · intro cfg req t upstreams
    simp only [postSubscriptions]
    repeat' split
    all_goals simp [userProbeCall, routeProbeCall, fkDelegationCall]
  · intro cfg upstreams
    rfl
  · intro cfg req upstreams
    simp only [dashboardHandler]
    repeat' split
    all_goals simp [profileCall, subsByUserCall, allRoutesCall, tripsCall]

/-- Witness for C7 as amended, at a concrete configuration and
environment. -/
theorem outbound_timeouts_witness :
    ((healthHandler cfgX allOkUpstreams).2.map (fun c => c.timeout)) =
      [none, none, none] :=
  outbound_timeouts.2.2.1 cfgX allOkUpstreams

end CompositeService
